import Mathlib

/-!
Verification model of the discord-token-checker repository.

The embedding translates the validation pipeline of the repository:
FormatValidator (src/validators/format-validator.ts), ApiValidator
(src/validators/api-validator.ts) and DiscordTokenChecker
(src/token-checker.ts), together with the JavaScript string and buffer
primitives they rely on.

Modelling conventions:
* JavaScript strings are Lean strings; operations that are sensitive to
  UTF-16 code units (String.prototype.length) are modelled by counting an
  astral-plane character as two units (jsLength).
* Node's forgiving base64 decoder (Buffer.from(s, 'base64')) is modelled
  by filtering the characters of both the standard and the URL-safe
  alphabet to sextets (padding and foreign characters are ignored) and
  regrouping them into bytes; a trailing single sextet is dropped, and
  trailing groups of two or three sextets yield one or two bytes, exactly
  as Node does.
* Buffer.prototype.toString on UTF-8 is modelled by a UTF-8
  decoder emitting U+FFFD for malformed input.  On malformed sequences the
  decoder resynchronises after the lead byte; this can produce more
  replacement characters than the WHATWG decoder, but both always place at
  least one non-digit, non-whitespace character at the start of the
  malformed region, which is all the digit test and parseInt observe.
* parseInt(s, 10) is modelled by skipping ECMAScript whitespace, reading
  an optional sign and then the longest digit run, with a NaN result
  modelled as none.  The numeric value is exact; double rounding beyond
  2^53 is not modelled, and the claims that use parseInt restrict
  themselves to epoch values far below that bound.
* Thrown exceptions are modelled with Except; a caught-and-discarded
  exception becomes an Option.  All definitions are total, so the
  "never throws" part of the error-handling claims is expressed by the
  functions being Option-valued and total.
-/

set_option maxRecDepth 8192

namespace TokenChecker

/-- ECMAScript whitespace code points (WhiteSpace plus LineTerminator),
the set used by String.prototype.trim and by parseInt. -/
def wsCodes : List Nat :=
  [9, 10, 11, 12, 13, 32, 160, 5760,
   8192, 8193, 8194, 8195, 8196, 8197, 8198, 8199, 8200, 8201, 8202,
   8232, 8233, 8239, 8287, 12288, 65279]

/-- Whether a character is ECMAScript whitespace. -/
def jsWSChar (c : Char) : Bool := wsCodes.contains c.toNat

/-- UTF-16 code units contributed by one character (2 for astral planes). -/
def charUnits (c : Char) : Nat := if 65536 ≤ c.toNat then 2 else 1

/-- JavaScript String.prototype.length: number of UTF-16 code units. -/
def jsLength (s : String) : Nat := (s.data.map charUnits).sum

/-- JavaScript String.prototype.trim on a character list. -/
def trimChars (l : List Char) : List Char :=
  ((l.dropWhile jsWSChar).reverse.dropWhile jsWSChar).reverse

/-- JavaScript String.prototype.trim. -/
def jsTrim (s : String) : String := String.mk (trimChars s.data)

/-- JavaScript String.prototype.split('.') on a character list:
splits at every dot, keeping empty pieces. -/
def splitChars : List Char → List (List Char)
  | [] => [[]]
  | c :: r =>
    if c = '.' then [] :: splitChars r
    else
      match splitChars r with
      | [] => [[c]]
      | h :: t => (c :: h) :: t

/-- JavaScript token.split('.'). -/
def jsSplit (s : String) : List String := (splitChars s.data).map String.mk

/-- Character-list version of String.prototype.startsWith. -/
def startsWithChars : List Char → List Char → Bool
  | [], _ => true
  | _ :: _, [] => false
  | p :: ps, c :: cs => p = c && startsWithChars ps cs

/-- JavaScript s.startsWith(pre) (the needles used are BMP-only, so the
code-unit and character readings agree). -/
def jsStartsWith (s pre : String) : Bool := startsWithChars pre.data s.data

/-- JavaScript s.endsWith(q) for a one-character needle. -/
def jsEndsWithChar (s : String) (c : Char) : Bool :=
  match s.data.getLast? with
  | some d => d = c
  | none => false

/-- JavaScript s.includes(c) for a one-character needle. -/
def jsIncludesChar (s : String) (c : Char) : Bool := s.data.contains c

/-- JavaScript truthiness of an optional string field: present and
non-empty. -/
def jsTruthyStr : Option String → Bool
  | some s => s ≠ ""
  | none => false

/-! ### Node base64 decoding (Buffer.from(s, 'base64')) -/

/-- Value of one base64 character; both the standard and the URL-safe
alphabet are accepted, anything else (including padding) is ignored. -/
def charToSextet (c : Char) : Option Nat :=
  if 'A' ≤ c ∧ c ≤ 'Z' then some (c.toNat - 65)
  else if 'a' ≤ c ∧ c ≤ 'z' then some (c.toNat - 97 + 26)
  else if '0' ≤ c ∧ c ≤ '9' then some (c.toNat - 48 + 52)
  else if c = '+' ∨ c = '-' then some 62
  else if c = '/' ∨ c = '_' then some 63
  else none

/-- Regroup sextets into bytes; trailing groups of 2 or 3 sextets yield 1
or 2 bytes, a trailing single sextet is dropped (Node semantics). -/
def decodeSextets : List Nat → List Nat
  | s1 :: s2 :: s3 :: s4 :: rest =>
    (s1 * 4 + s2 / 16) :: ((s2 % 16) * 16 + s3 / 4) :: ((s3 % 4) * 64 + s4) ::
      decodeSextets rest
  | [s1, s2, s3] => [s1 * 4 + s2 / 16, (s2 % 16) * 16 + s3 / 4]
  | [s1, s2] => [s1 * 4 + s2 / 16]
  | [_] => []
  | [] => []

/-- Node Buffer.from(s, 'base64') as a byte list. -/
def b64decodeBytes (s : String) : List Nat :=
  decodeSextets (s.data.filterMap charToSextet)

/-! ### UTF-8 decoding (Buffer.prototype.toString('utf-8')) -/

/-- The replacement character U+FFFD. -/
def repl : Char := Char.ofNat 65533

/-- Whether a byte is a UTF-8 continuation byte. -/
def utf8Cont (b : Nat) : Bool := 128 ≤ b && b ≤ 191

/-- Allowed range of the first continuation byte after lead byte b
(tightened for 0xE0/0xED/0xF0/0xF4 to exclude overlongs and surrogates). -/
def utf8Cont1 (b b2 : Nat) : Bool :=
  if b = 224 then 160 ≤ b2 && b2 ≤ 191
  else if b = 237 then 128 ≤ b2 && b2 ≤ 159
  else if b = 240 then 144 ≤ b2 && b2 ≤ 191
  else if b = 244 then 128 ≤ b2 && b2 ≤ 143
  else utf8Cont b2

/-- UTF-8 decoder with U+FFFD replacement on malformed input, written as
one pattern matrix over the available lookahead: a lead byte whose
continuation bytes are present and in range consumes them, any other
lead byte yields one replacement character and decoding resumes at the
next byte. -/
def utf8Decode : List Nat → List Char
  | [] => []
  | [b] => if b < 128 then [Char.ofNat b] else [repl]
  | [b, b2] =>
    if b < 128 then Char.ofNat b :: utf8Decode [b2]
    else if b < 194 then repl :: utf8Decode [b2]
    else if b < 224 then
      if utf8Cont b2 then [Char.ofNat ((b - 192) * 64 + (b2 - 128))]
      else repl :: utf8Decode [b2]
    else repl :: utf8Decode [b2]
  | [b, b2, b3] =>
    if b < 128 then Char.ofNat b :: utf8Decode [b2, b3]
    else if b < 194 then repl :: utf8Decode [b2, b3]
    else if b < 224 then
      if utf8Cont b2 then
        Char.ofNat ((b - 192) * 64 + (b2 - 128)) :: utf8Decode [b3]
      else repl :: utf8Decode [b2, b3]
    else if b < 240 then
      if utf8Cont1 b b2 && utf8Cont b3 then
        [Char.ofNat ((b - 224) * 4096 + (b2 - 128) * 64 + (b3 - 128))]
      else repl :: utf8Decode [b2, b3]
    else repl :: utf8Decode [b2, b3]
  | b :: b2 :: b3 :: b4 :: rest =>
    if b < 128 then Char.ofNat b :: utf8Decode (b2 :: b3 :: b4 :: rest)
    else if b < 194 then repl :: utf8Decode (b2 :: b3 :: b4 :: rest)
    else if b < 224 then
      if utf8Cont b2 then
        Char.ofNat ((b - 192) * 64 + (b2 - 128)) ::
          utf8Decode (b3 :: b4 :: rest)
      else repl :: utf8Decode (b2 :: b3 :: b4 :: rest)
    else if b < 240 then
      if utf8Cont1 b b2 && utf8Cont b3 then
        Char.ofNat ((b - 224) * 4096 + (b2 - 128) * 64 + (b3 - 128)) ::
          utf8Decode (b4 :: rest)
      else repl :: utf8Decode (b2 :: b3 :: b4 :: rest)
    else if b < 245 then
      if utf8Cont1 b b2 && utf8Cont b3 && utf8Cont b4 then
        Char.ofNat
          ((b - 240) * 262144 + (b2 - 128) * 4096 + (b3 - 128) * 64 +
            (b4 - 128)) :: utf8Decode rest
      else repl :: utf8Decode (b2 :: b3 :: b4 :: rest)
    else repl :: utf8Decode (b2 :: b3 :: b4 :: rest)

/-- UTF-8 encoding of one character. -/
def utf8EncodeChar (c : Char) : List Nat :=
  if c.toNat < 128 then [c.toNat]
  else if c.toNat < 2048 then [192 + c.toNat / 64, 128 + c.toNat % 64]
  else if c.toNat < 65536 then
    [224 + c.toNat / 4096, 128 + (c.toNat / 64) % 64, 128 + c.toNat % 64]
  else
    [240 + c.toNat / 262144, 128 + (c.toNat / 4096) % 64,
     128 + (c.toNat / 64) % 64, 128 + c.toNat % 64]

/-- UTF-8 encoding of a character list. -/
def utf8Encode : List Char → List Nat
  | [] => []
  | c :: r => utf8EncodeChar c ++ utf8Encode r

/-! ### parseInt -/

/-- Decimal value of a digit run. -/
def charsToNat (l : List Char) : Nat :=
  l.foldl (fun a c => a * 10 + (c.toNat - 48)) 0

/-- JavaScript parseInt(s, 10): skip whitespace, optional sign, longest
digit run; none models NaN. -/
def jsParseInt (cs : List Char) : Option Int :=
  match cs.dropWhile jsWSChar with
  | [] => none
  | c0 :: rest =>
    let sgn : Int := if c0 = '-' then -1 else 1
    let body := if c0 = '-' ∨ c0 = '+' then rest else c0 :: rest
    let ds := body.takeWhile Char.isDigit
    if ds.isEmpty then none else some (sgn * (charsToNat ds : Int))

/-! ### Base64 encoding (used to construct synthetic tokens) -/

/-- Standard base64 alphabet character of a sextet. -/
def valToChar (v : Nat) : Char :=
  if v < 26 then Char.ofNat (65 + v)
  else if v < 52 then Char.ofNat (97 + v - 26)
  else if v < 62 then Char.ofNat (48 + v - 52)
  else if v = 62 then '+'
  else '/'

/-- Standard base64 encoding with padding of a byte list. -/
def b64encodeBytes : List Nat → List Char
  | [] => []
  | [b1] => [valToChar (b1 / 4), valToChar (b1 % 4 * 16), '=', '=']
  | [b1, b2] =>
    [valToChar (b1 / 4), valToChar (b1 % 4 * 16 + b2 / 16),
     valToChar (b2 % 16 * 4), '=']
  | b1 :: b2 :: b3 :: rest =>
    valToChar (b1 / 4) :: valToChar (b1 % 4 * 16 + b2 / 16) ::
      valToChar (b2 % 16 * 4 + b3 / 64) :: valToChar (b3 % 64) ::
      b64encodeBytes rest

/-- Base64 encoding of the UTF-8 bytes of a character list, as a string. -/
def b64encodeOfChars (cs : List Char) : String :=
  String.mk (b64encodeBytes (utf8Encode cs))

/-- Decimal representation of a natural number as a digit-character list. -/
def decRepr (n : Nat) : List Char :=
  if _h : n < 10 then [Nat.digitChar n]
  else decRepr (n / 10) ++ [Nat.digitChar (n % 10)]
  decreasing_by exact Nat.div_lt_self (by omega) (by omega)

/-! ### Data model (src/types/token.types.ts) -/

/-- TokenSource. -/
inductive TokenSource where
  | env | file | direct
  deriving DecidableEq, Repr

/-- ValidationMethod. -/
inductive ValidationMethod where
  | format | api | both
  deriving DecidableEq, Repr

/-- TokenErrorType. -/
inductive TokenErrorType where
  | INVALID_FORMAT
  | TOKEN_NOT_FOUND
  | API_ERROR
  | NETWORK_ERROR
  | RATE_LIMITED
  | UNAUTHORIZED
  | FILE_NOT_FOUND
  | INVALID_CONFIG
  deriving DecidableEq, Repr

/-- Structured detail attached to a TokenValidationError.  Only the fields
that other code reads back (statusCode, retryAfter) are modelled; the raw
response payload, parse errors and original causes also stored there are
never observed by the pipeline and are omitted. -/
structure ErrDetails where
  statusCode : Option Nat := none
  retryAfter : Option String := none
  deriving DecidableEq, Repr

/-- TokenValidationError (the thrown classified failure). -/
structure TokenValidationError where
  message : String
  type : TokenErrorType
  details : Option ErrDetails := none
  deriving DecidableEq, Repr

/-- DiscordUserInfo. -/
structure DiscordUserInfo where
  id : String
  username : String
  discriminator : String
  email : Option String := none
  verified : Option Bool := none
  mfaEnabled : Option Bool := none
  premium : Option Bool := none
  premiumType : Option Int := none
  avatar : Option String := none
  banner : Option String := none
  accentColor : Option Int := none
  deriving DecidableEq, Repr

/-- The JSON payload of a 200 response from the identity endpoint, with
the fields parseUserInfo reads; absent JSON fields are none. -/
structure RawUser where
  id : String := ""
  username : String := ""
  discriminator : Option String := none
  email : Option String := none
  verified : Option Bool := none
  mfa_enabled : Option Bool := none
  premium_type : Option Int := none
  avatar : Option String := none
  banner : Option String := none
  accent_color : Option Int := none
  deriving DecidableEq, Repr

/-- ApiValidationResponse. -/
structure ApiValidationResponse where
  success : Bool
  userInfo : Option DiscordUserInfo := none
  error : Option String := none
  statusCode : Option Nat := none
  rateLimited : Option Bool := none
  deriving DecidableEq, Repr

/-- One entry of the errors/warnings string lists.  Each constructor is
one push site of the source, carrying the values interpolated into the
template; render gives the exact source string. -/
inductive Msg where
  | placeholderValue
  | wrongPartCount (n : Nat)
  | tooShort (n : Nat)
  | mightBeTooShort (n : Nat)
  | containsSpaces
  | hasQuotes
  | botToken
  | firstPartTooShort
  | secondPartTooShort
  | thirdPartTooShort
  | firstPartBadChars
  | secondPartBadChars
  | thirdPartBadChars
  | apiValidationFailed (e : String)
  | apiValidationError (e : String)
  deriving DecidableEq, Repr

/-- The exact source string of a message. -/
def Msg.render : Msg → String
  | .placeholderValue => "Token is still using placeholder value"
  | .wrongPartCount n =>
    "Token should have 3 parts separated by dots, found " ++ toString n
  | .tooShort n =>
    "Token is too short (" ++ toString n ++
      " characters). Discord tokens are typically 70+ characters"
  | .mightBeTooShort n =>
    "Token might be too short (" ++ toString n ++
      " characters). Discord tokens are typically 70+ characters"
  | .containsSpaces => "Token contains spaces - remove all spaces"
  | .hasQuotes => "Token has quotes - remove all quotes"
  | .botToken => "This appears to be a BOT token. Self-bots require USER tokens"
  | .firstPartTooShort => "First part (user ID) seems too short"
  | .secondPartTooShort => "Second part (timestamp) seems too short"
  | .thirdPartTooShort => "Third part (signature) seems too short"
  | .firstPartBadChars => "First part contains invalid characters for base64"
  | .secondPartBadChars => "Second part contains invalid characters for base64"
  | .thirdPartBadChars => "Third part contains invalid characters for base64"
  | .apiValidationFailed e => "API validation failed: " ++ e
  | .apiValidationError e => "API validation error: " ++ e

/-- The five-boolean format block of TokenValidationResult. -/
structure FormatFlags where
  hasCorrectParts : Bool
  hasCorrectLength : Bool
  hasNoSpaces : Bool
  hasNoQuotes : Bool
  isNotBotToken : Bool
  deriving DecidableEq, Repr

/-- The metadata block of TokenValidationResult. -/
structure TokenMetadata where
  length : Nat
  parts : Nat
  source : TokenSource
  deriving DecidableEq, Repr

/-- The api block of TokenValidationResult. -/
structure ApiInfo where
  isActive : Bool
  userInfo : Option DiscordUserInfo := none
  error : Option String := none
  deriving DecidableEq, Repr

/-- TokenValidationResult. -/
structure TokenValidationResult where
  isValid : Bool
  format : FormatFlags
  api : Option ApiInfo := none
  errors : List Msg
  warnings : List Msg
  metadata : TokenMetadata
  deriving DecidableEq, Repr

/-! ### FormatValidator (src/validators/format-validator.ts) -/

namespace FormatValidator

/-- The placeholder list of validateFormat. -/
def placeholders : List String :=
  ["your_discord_token_here", "your_discord_user_token_here",
   "your_token_here", "TOKEN_HERE", "DISCORD_TOKEN"]

/-- One character of the base64Regex class [A-Za-z0-9+/=_-]. -/
def isB64Char (c : Char) : Bool :=
  ('A' ≤ c && c ≤ 'Z') || ('a' ≤ c && c ≤ 'z') || ('0' ≤ c && c ≤ '9') ||
    c = '+' || c = '/' || c = '=' || c = '_' || c = '-'

/-- The test of base64Regex = /^[A-Za-z0-9+/=_-]+$/ on a segment. -/
def b64RegexTest (s : String) : Bool :=
  !s.data.isEmpty && s.data.all isB64Char

/-- validateTokenStructure: the warnings it appends.  Its errors parameter
is declared but never written to in the source (it is named _errors
there), so the function contributes warnings only. -/
def validateTokenStructure : List String → List Msg
  | [userPart, timestampPart, signaturePart] =>
    (if jsLength userPart < 10 then [Msg.firstPartTooShort] else []) ++
    (if jsLength timestampPart < 6 then [Msg.secondPartTooShort] else []) ++
    (if jsLength signaturePart < 20 then [Msg.thirdPartTooShort] else []) ++
    (if !b64RegexTest userPart then [Msg.firstPartBadChars] else []) ++
    (if !b64RegexTest timestampPart then [Msg.secondPartBadChars] else []) ++
    (if !b64RegexTest signaturePart then [Msg.thirdPartBadChars] else [])
  | _ => []

/-- Whether the trimmed token violates the quote check. -/
def quoteViolation (t : String) : Bool :=
  jsStartsWith t "\"" || jsEndsWithChar t '"' ||
    jsStartsWith t "'" || jsEndsWithChar t '\''

/-- The result validateFormat builds for a trimmed, non-empty token. -/
def mkFormatResult (t : String) : TokenValidationResult :=
  let tokenParts := jsSplit t
  let len := jsLength t
  let errors : List Msg :=
    (if placeholders.contains t then [Msg.placeholderValue] else []) ++
    (if tokenParts.length ≠ 3 then [Msg.wrongPartCount tokenParts.length]
     else []) ++
    (if len < 30 then [Msg.tooShort len] else []) ++
    (if jsIncludesChar t ' ' then [Msg.containsSpaces] else []) ++
    (if quoteViolation t then [Msg.hasQuotes] else []) ++
    (if jsStartsWith t "Bot " then [Msg.botToken] else [])
  let warnings : List Msg :=
    (if 30 ≤ len ∧ len < 50 then [Msg.mightBeTooShort len] else []) ++
    validateTokenStructure tokenParts
  { isValid := errors.isEmpty
    format :=
      { hasCorrectParts := tokenParts.length = 3
        hasCorrectLength := 50 ≤ len
        hasNoSpaces := !jsIncludesChar t ' '
        hasNoQuotes := !quoteViolation t
        isNotBotToken := !jsStartsWith t "Bot " }
    errors := errors
    warnings := warnings
    metadata := { length := len, parts := tokenParts.length,
                  source := .direct } }

/-- validateFormat.  The two fail-fast throws (falsy token, empty after
trimming) are the error branches; a Lean String cannot be null or
undefined, so the falsy case is the empty string. -/
def validateFormat (token : String) :
    Except TokenValidationError TokenValidationResult :=
  if token = "" then
    .error { message := "Token is null or undefined",
             type := .TOKEN_NOT_FOUND }
  else if jsLength (jsTrim token) = 0 then
    .error { message := "Token is empty", type := .TOKEN_NOT_FOUND }
  else
    .ok (mkFormatResult (jsTrim token))

/-- extractUserId after the 3-segment split.  Buffer.from(seg, 'base64')
followed by toString('utf-8') is b64decodeBytes then utf8Decode; the test
of /^\d+$/ is: non-empty and every character an ASCII digit (the only
characters the class \d matches). -/
def extractUserIdFromParts : List String → Option String
  | [userIdPart, _, _] =>
    let decoded := utf8Decode (b64decodeBytes userIdPart)
    if !decoded.isEmpty && decoded.all Char.isDigit then
      some (String.mk decoded)
    else none
  | _ => none

/-- extractUserId.  Total: every decode or test failure yields none, which
models the catch-all returning null in the source. -/
def extractUserId (token : String) : Option String :=
  extractUserIdFromParts (jsSplit token)

/-- extractTimestamp after the 3-segment split.  The returned Date is
modelled by its millisecond value timestamp * 1000; the NaN check of the
source is the none case of jsParseInt. -/
def extractTimestampFromParts : List String → Option Int
  | [_, timestampPart, _] =>
    match jsParseInt (utf8Decode (b64decodeBytes timestampPart)) with
    | none => none
    | some timestamp => some (timestamp * 1000)
  | _ => none

/-- extractTimestamp.  Total, like extractUserId. -/
def extractTimestamp (token : String) : Option Int :=
  extractTimestampFromParts (jsSplit token)

end FormatValidator

/-! ### ApiValidator (src/validators/api-validator.ts) -/

namespace ApiValidator

/-- What one HTTPS exchange with the identity endpoint can yield, the
oracle validateWithApi is run against: a transport error, a timeout, or a
response with a status code, a body (none when JSON.parse of the body
throws) and an optional retry-after header. -/
inductive HttpExchange where
  | netError (msg : String)
  | timeout (ms : Nat)
  | response (status : Nat) (body : Option RawUser) (retryAfter : Option String)
  deriving DecidableEq, Repr

/-- A value thrown inside the try of validateWithApi: either a classified
TokenValidationError, or any other value (generic with the message when it
is an Error, generic none otherwise). -/
inductive JsError where
  | tve (e : TokenValidationError)
  | generic (msg : Option String)
  deriving DecidableEq, Repr

/-- parseUserInfo.  response.discriminator is subjected to || '0', so an
absent or empty discriminator becomes "0"; premium is premium_type > 0
with an absent premium_type comparing false. -/
def parseUserInfo (response : RawUser) : DiscordUserInfo :=
  { id := response.id
    username := response.username
    discriminator :=
      match response.discriminator with
      | some d => if d = "" then "0" else d
      | none => "0"
    email := response.email
    verified := response.verified
    mfaEnabled := response.mfa_enabled
    premium := some (match response.premium_type with
                     | some p => decide (0 < p)
                     | none => false)
    premiumType := response.premium_type
    avatar := response.avatar
    banner := response.banner
    accentColor := response.accent_color }

/-- makeApiRequest as a function of the HTTPS exchange.  JSON.parse runs
before the status switch, so an unparsable body rejects with the parse
ApiError for every status.  The switch order 200/401/429/403/default of
the source is kept. -/
def makeApiRequest (h : HttpExchange) :
    Except TokenValidationError DiscordUserInfo :=
  match h with
  | .netError msg =>
    .error { message := "Network error: " ++ msg, type := .NETWORK_ERROR,
             details := some {} }
  | .timeout ms =>
    .error { message := "Request timeout after " ++ toString ms ++ "ms",
             type := .NETWORK_ERROR, details := some {} }
  | .response status body retryAfter =>
    match body with
    | none =>
      .error { message := "Failed to parse API response", type := .API_ERROR,
               details := some {} }
    | some response =>
      if status = 200 then .ok (parseUserInfo response)
      else if status = 401 then
        .error { message := "Token is invalid or expired",
                 type := .UNAUTHORIZED,
                 details := some { statusCode := some 401 } }
      else if status = 429 then
        .error { message := "Rate limited. Retry after " ++
                   retryAfter.getD "undefined" ++ " seconds",
                 type := .RATE_LIMITED,
                 details := some { statusCode := some 429,
                                   retryAfter := retryAfter } }
      else if status = 403 then
        .error { message :=
                   "Access forbidden. Token may be valid but lacks permissions",
                 type := .API_ERROR,
                 details := some { statusCode := some 403 } }
      else
        .error { message := "API request failed with status " ++
                   toString status,
                 type := .API_ERROR,
                 details := some { statusCode := some status } }

/-- validateWithApi as a function of what its try block produced.  The
includeUserInfo flag of the per-call configuration decides whether the
success response carries the profile. -/
def validateWithApi (includeUserInfo : Bool)
    (r : Except JsError DiscordUserInfo) : ApiValidationResponse :=
  match r with
  | .ok userInfo =>
    { success := true,
      userInfo := if includeUserInfo then some userInfo else none }
  | .error (.tve e) =>
    { success := false
      error := some e.message
      statusCode := e.details.bind (·.statusCode)
      rateLimited := some (e.type = .RATE_LIMITED) }
  | .error (.generic msg) =>
    { success := false, error := some (msg.getD "Unknown error") }

/-- validateWithApi composed with makeApiRequest: the whole API phase as a
function of the HTTPS exchange.  makeApiRequest only ever rejects with
TokenValidationError values, so its error lifts through JsError.tve. -/
def validateWithApiHttp (includeUserInfo : Bool) (h : HttpExchange) :
    ApiValidationResponse :=
  validateWithApi includeUserInfo ((makeApiRequest h).mapError JsError.tve)

/-- The LivenessOutcome invariant of the spec: success implies no error
string, failure implies no user profile. -/
def livenessInvariant (resp : ApiValidationResponse) : Bool :=
  if resp.success then resp.error.isNone else resp.userInfo.isNone

end ApiValidator

/-! ### DiscordTokenChecker (src/token-checker.ts) -/

namespace DiscordTokenChecker

/-- What the awaited API step of validateToken can do: run the HTTPS
exchange through ApiValidator.validateWithApi, or throw (the defensive
catch of the source; validateWithApi itself never throws, but the branch
is part of the code).  throwJs carries the message when the thrown value
is an Error, none otherwise. -/
inductive ApiStep where
  | call (h : ApiValidator.HttpExchange)
  | throwJs (msg : Option String)
  deriving DecidableEq, Repr

/-- Lines 187-221 of token-checker.ts: merge the API step into the result
when the method requests it and config.checkApi allows it. -/
def applyApi (r : TokenValidationResult) (checkApi includeUserInfo : Bool)
    (api : ApiStep) : TokenValidationResult :=
  if !checkApi then r
  else
    match api with
    | .call h =>
      let apiResult := ApiValidator.validateWithApiHttp includeUserInfo h
      let apiInfo : ApiInfo :=
        { isActive := apiResult.success
          userInfo := apiResult.userInfo
          error := if jsTruthyStr apiResult.error then apiResult.error
                   else none }
      let r := { r with api := some apiInfo }
      if apiResult.success then r
      else
        { r with
          isValid := false
          errors := r.errors ++
            (if jsTruthyStr apiResult.error then
               [Msg.apiValidationFailed (apiResult.error.getD "")]
             else []) }
    | .throwJs msg =>
      let m := msg.getD "Unknown API error"
      { r with
        api := some { isActive := false, error := some m }
        isValid := false
        errors := r.errors ++ [Msg.apiValidationError m] }

/-- validateToken.  The network is an oracle passed as the api argument;
checkApi and includeUserInfo are the relevant configuration fields. -/
def validateToken (token : String) (source : TokenSource)
    (method : ValidationMethod) (checkApi includeUserInfo : Bool)
    (api : ApiStep) : Except TokenValidationError TokenValidationResult :=
  match method with
  | .format =>
    match FormatValidator.validateFormat token with
    | .error e => .error e
    | .ok r0 =>
      -- early return for an invalid format-only result; the fall-through
      -- also skips the API gate because the method is format
      .ok { r0 with metadata := { r0.metadata with source := source } }
  | .both =>
    match FormatValidator.validateFormat token with
    | .error e => .error e
    | .ok r0 =>
      let r := { r0 with metadata := { r0.metadata with source := source } }
      .ok (applyApi r checkApi includeUserInfo api)
  | .api =>
    -- minimal result for API-only validation: the all-true placeholder
    let r : TokenValidationResult :=
      { isValid := true
        format := { hasCorrectParts := true, hasCorrectLength := true,
                    hasNoSpaces := true, hasNoQuotes := true,
                    isNotBotToken := true }
        errors := []
        warnings := []
        metadata := { length := jsLength token,
                      parts := (jsSplit token).length, source := source } }
    .ok (applyApi r checkApi includeUserInfo api)

/-- quickFormatCheck: format validation with every thrown classified
failure caught and turned into false. -/
def quickFormatCheck (token : String) : Bool :=
  match FormatValidator.validateFormat token with
  | .ok result => result.isValid
  | .error _ => false

end DiscordTokenChecker

/-- The synthetic round-trip token of the spec: segment 1 the base64
encoding of the digit string "123456789012345678", segment 2 the base64
encoding of the decimal representation of an epoch-seconds value, and an
arbitrary signature segment. -/
def synthToken (epoch : Nat) (sig : String) : String :=
  b64encodeOfChars "123456789012345678".data ++ "." ++
    b64encodeOfChars (decRepr epoch) ++ "." ++ sig

/-- The messages produced by validateTokenStructure (the secondary
structural checks). -/
def isStructMsg : Msg → Bool
  | .firstPartTooShort | .secondPartTooShort | .thirdPartTooShort
  | .firstPartBadChars | .secondPartBadChars | .thirdPartBadChars => true
  | _ => false

/-! ## Helper lemmas -/

theorem mem_ite_singleton {c : Prop} [Decidable c] {m x : Msg} :
    (m ∈ if c then [x] else []) ↔ m = x ∧ c := by
  split <;> simp_all

theorem mkFormatResult_isValid (t : String) :
    (FormatValidator.mkFormatResult t).isValid =
      (FormatValidator.mkFormatResult t).errors.isEmpty := rfl

theorem validateFormat_ok {token : String} {fr : TokenValidationResult}
    (h : FormatValidator.validateFormat token = .ok fr) :
    fr = FormatValidator.mkFormatResult (jsTrim token) := by
  unfold FormatValidator.validateFormat at h
  split at h
  · exact absurd h (by simp)
  · split at h
    · exact absurd h (by simp)
    · exact (Except.ok.inj h).symm

theorem mem_mkFormatResult_errors (t : String) (m : Msg) :
    m ∈ (FormatValidator.mkFormatResult t).errors ↔
      (m = .placeholderValue ∧ FormatValidator.placeholders.contains t = true)
      ∨ (m = .wrongPartCount (jsSplit t).length ∧ (jsSplit t).length ≠ 3)
      ∨ (m = .tooShort (jsLength t) ∧ jsLength t < 30)
      ∨ (m = .containsSpaces ∧ jsIncludesChar t ' ' = true)
      ∨ (m = .hasQuotes ∧ FormatValidator.quoteViolation t = true)
      ∨ (m = .botToken ∧ jsStartsWith t "Bot " = true) := by
  simp only [FormatValidator.mkFormatResult, List.mem_append,
    mem_ite_singleton]
  tauto

theorem mem_validateTokenStructure (a b c : String) (m : Msg) :
    m ∈ FormatValidator.validateTokenStructure [a, b, c] ↔
      (m = .firstPartTooShort ∧ jsLength a < 10)
      ∨ (m = .secondPartTooShort ∧ jsLength b < 6)
      ∨ (m = .thirdPartTooShort ∧ jsLength c < 20)
      ∨ (m = .firstPartBadChars ∧ FormatValidator.b64RegexTest a = false)
      ∨ (m = .secondPartBadChars ∧ FormatValidator.b64RegexTest b = false)
      ∨ (m = .thirdPartBadChars ∧ FormatValidator.b64RegexTest c = false) := by
  simp only [FormatValidator.validateTokenStructure, List.mem_append,
    mem_ite_singleton, Bool.not_eq_true']
  tauto

theorem mem_mkFormatResult_warnings (t : String) (m : Msg) :
    m ∈ (FormatValidator.mkFormatResult t).warnings ↔
      (m = .mightBeTooShort (jsLength t) ∧
        30 ≤ jsLength t ∧ jsLength t < 50)
      ∨ m ∈ FormatValidator.validateTokenStructure (jsSplit t) := by
  simp only [FormatValidator.mkFormatResult, List.mem_append,
    mem_ite_singleton, and_assoc]

theorem structMsg_of_mem_validateTokenStructure {parts : List String}
    {m : Msg} (h : m ∈ FormatValidator.validateTokenStructure parts) :
    isStructMsg m = true := by
  match parts with
  | [a, b, c] =>
    rw [mem_validateTokenStructure] at h
    rcases h with ⟨rfl, _⟩ | ⟨rfl, _⟩ | ⟨rfl, _⟩ | ⟨rfl, _⟩ | ⟨rfl, _⟩
      | ⟨rfl, _⟩ <;> rfl
  | [] => simp [FormatValidator.validateTokenStructure] at h
  | [_] => simp [FormatValidator.validateTokenStructure] at h
  | [_, _] => simp [FormatValidator.validateTokenStructure] at h
  | _ :: _ :: _ :: _ :: _ => simp [FormatValidator.validateTokenStructure] at h

theorem errors_not_structMsg {t : String} {m : Msg}
    (h : m ∈ (FormatValidator.mkFormatResult t).errors) :
    isStructMsg m = false := by
  rw [mem_mkFormatResult_errors] at h
  rcases h with ⟨rfl, _⟩ | ⟨rfl, _⟩ | ⟨rfl, _⟩ | ⟨rfl, _⟩ | ⟨rfl, _⟩
    | ⟨rfl, _⟩ <;> rfl

/-! ## Claim theorems -/

/-- C2: for every token accepted by format validation, the verdict's
isValid is true exactly when the accumulated hard-error list is empty;
the warning list plays no part in the value of isValid, which is a
function of the error list alone. -/
theorem format_isValid_iff_no_errors (token : String)
    (fr : TokenValidationResult)
    (hok : FormatValidator.validateFormat token = .ok fr) :
    fr.isValid = true ↔ fr.errors = [] := by
  rw [validateFormat_ok hok, mkFormatResult_isValid]
  exact List.isEmpty_eq_true

/-- C2 witness at the concrete token "abc". -/
theorem format_isValid_iff_no_errors_witness :
    ((FormatValidator.mkFormatResult (jsTrim "abc")).isValid = true ↔
      (FormatValidator.mkFormatResult (jsTrim "abc")).errors = []) :=
  format_isValid_iff_no_errors "abc" _ rfl

/-- C10: quickFormatCheck never lets the TokenNotFound classified failure
thrown for an empty or whitespace-only token escape: it catches it and
returns false.  (The null/undefined inputs of the claim are not
representable in a Lean String; the empty string is the falsy string
value, and any token that trims to the empty string takes the second
throw.) -/
theorem quickFormatCheck_empty_false (token : String)
    (hempty : jsLength (jsTrim token) = 0) :
    DiscordTokenChecker.quickFormatCheck token = false := by
  unfold DiscordTokenChecker.quickFormatCheck FormatValidator.validateFormat
  by_cases h0 : token = ""
  · rw [if_pos h0]
  · rw [if_neg h0, if_pos hempty]

/-- C10 witness: the empty string and a whitespace-only string. -/
theorem quickFormatCheck_empty_false_witness :
    jsLength (jsTrim "") = 0 ∧ jsLength (jsTrim "   ") = 0 ∧
      DiscordTokenChecker.quickFormatCheck "" = false ∧
      DiscordTokenChecker.quickFormatCheck "   " = false :=
  ⟨by decide, by decide,
   quickFormatCheck_empty_false "" (by decide),
   quickFormatCheck_empty_false "   " (by decide)⟩

theorem mkFormatResult_hasCorrectLength (t : String) :
    (FormatValidator.mkFormatResult t).format.hasCorrectLength =
      decide (50 ≤ jsLength t) := rfl

/-- C3: the graded length rule of format validation on the trimmed token:
below 30 a hard too-short error is appended and the result is invalid; in
[30,50) only a might-be-too-short warning appears and no length error can
reach the error list; at 50 and above neither length message appears; and
hasCorrectLength is false exactly when the length is below 50. -/
theorem format_length_grading (token : String) (fr : TokenValidationResult)
    (hok : FormatValidator.validateFormat token = .ok fr) :
    (fr.format.hasCorrectLength = false ↔ jsLength (jsTrim token) < 50)
    ∧ (jsLength (jsTrim token) < 30 →
        Msg.tooShort (jsLength (jsTrim token)) ∈ fr.errors ∧
          fr.isValid = false)
    ∧ (30 ≤ jsLength (jsTrim token) → jsLength (jsTrim token) < 50 →
        Msg.mightBeTooShort (jsLength (jsTrim token)) ∈ fr.warnings ∧
          ∀ n, Msg.tooShort n ∉ fr.errors)
    ∧ (50 ≤ jsLength (jsTrim token) →
        (∀ n, Msg.tooShort n ∉ fr.errors) ∧
          ∀ n, Msg.mightBeTooShort n ∉ fr.warnings) := by
  have hfr := validateFormat_ok hok
  subst hfr
  refine ⟨?_, ?_, ?_, ?_⟩
  · rw [mkFormatResult_hasCorrectLength]
    simp only [decide_eq_false_iff_not]
    omega
  · intro h30
    have hmem : Msg.tooShort (jsLength (jsTrim token)) ∈
        (FormatValidator.mkFormatResult (jsTrim token)).errors := by
      rw [mem_mkFormatResult_errors]
      exact Or.inr (Or.inr (Or.inl ⟨rfl, h30⟩))
    refine ⟨hmem, ?_⟩
    rw [mkFormatResult_isValid]
    simpa using List.ne_nil_of_mem hmem
  · intro h30 h50
    constructor
    · rw [mem_mkFormatResult_warnings]
      exact Or.inl ⟨rfl, h30, h50⟩
    · intro n hmem
      rw [mem_mkFormatResult_errors] at hmem
      rcases hmem with ⟨h, _⟩ | ⟨h, _⟩ | ⟨_, h⟩ | ⟨h, _⟩ | ⟨h, _⟩ | ⟨h, _⟩ <;>
        first | simp at h | omega
  · intro h50
    constructor
    · intro n hmem
      rw [mem_mkFormatResult_errors] at hmem
      rcases hmem with ⟨h, _⟩ | ⟨h, _⟩ | ⟨_, h⟩ | ⟨h, _⟩ | ⟨h, _⟩ | ⟨h, _⟩ <;>
        first | simp at h | omega
    · intro n hmem
      rw [mem_mkFormatResult_warnings] at hmem
      rcases hmem with ⟨_, _, h⟩ | h
      · omega
      · exact absurd (structMsg_of_mem_validateTokenStructure h)
          (by simp [isStructMsg])

/-- C3 witness at the concrete token "abc" (trimmed length 3 < 30). -/
theorem format_length_grading_witness :
    FormatValidator.validateFormat "abc" =
      .ok (FormatValidator.mkFormatResult (jsTrim "abc")) ∧
    (((FormatValidator.mkFormatResult (jsTrim "abc")).format.hasCorrectLength
        = false ↔ jsLength (jsTrim "abc") < 50)
    ∧ (jsLength (jsTrim "abc") < 30 →
        Msg.tooShort (jsLength (jsTrim "abc")) ∈
            (FormatValidator.mkFormatResult (jsTrim "abc")).errors ∧
          (FormatValidator.mkFormatResult (jsTrim "abc")).isValid = false)
    ∧ (30 ≤ jsLength (jsTrim "abc") → jsLength (jsTrim "abc") < 50 →
        Msg.mightBeTooShort (jsLength (jsTrim "abc")) ∈
            (FormatValidator.mkFormatResult (jsTrim "abc")).warnings ∧
          ∀ n, Msg.tooShort n ∉
            (FormatValidator.mkFormatResult (jsTrim "abc")).errors)
    ∧ (50 ≤ jsLength (jsTrim "abc") →
        (∀ n, Msg.tooShort n ∉
            (FormatValidator.mkFormatResult (jsTrim "abc")).errors) ∧
          ∀ n, Msg.mightBeTooShort n ∉
            (FormatValidator.mkFormatResult (jsTrim "abc")).warnings)) :=
  ⟨rfl, format_length_grading "abc" _ rfl⟩

/-- C9: for a token whose trimmed form splits into exactly 3 segments,
the secondary structural checks only ever append warnings: each of the
six structure messages sits in the warning list exactly under its
condition (segment 1 shorter than 10, segment 2 shorter than 6, segment 3
shorter than 20, or a segment failing the URL-safe base64 class), no
structure message can reach the error list, and validity remains a
function of the error list alone. -/
theorem structure_checks_warn_only (token : String)
    (fr : TokenValidationResult) (a b c : String)
    (hok : FormatValidator.validateFormat token = .ok fr)
    (h3 : jsSplit (jsTrim token) = [a, b, c]) :
    (∀ m ∈ fr.errors, isStructMsg m = false)
    ∧ (Msg.firstPartTooShort ∈ fr.warnings ↔ jsLength a < 10)
    ∧ (Msg.secondPartTooShort ∈ fr.warnings ↔ jsLength b < 6)
    ∧ (Msg.thirdPartTooShort ∈ fr.warnings ↔ jsLength c < 20)
    ∧ (Msg.firstPartBadChars ∈ fr.warnings ↔
        FormatValidator.b64RegexTest a = false)
    ∧ (Msg.secondPartBadChars ∈ fr.warnings ↔
        FormatValidator.b64RegexTest b = false)
    ∧ (Msg.thirdPartBadChars ∈ fr.warnings ↔
        FormatValidator.b64RegexTest c = false)
    ∧ fr.isValid = fr.errors.isEmpty := by
  have hfr := validateFormat_ok hok
  subst hfr
  refine ⟨fun m hm => errors_not_structMsg hm, ?_, ?_, ?_, ?_, ?_, ?_,
    mkFormatResult_isValid _⟩ <;>
    rw [mem_mkFormatResult_warnings, h3, mem_validateTokenStructure] <;> simp

/-- C9 witness at the concrete token "aa.bb.cc". -/
theorem structure_checks_warn_only_witness :
    FormatValidator.validateFormat "aa.bb.cc" =
      .ok (FormatValidator.mkFormatResult (jsTrim "aa.bb.cc")) ∧
    jsSplit (jsTrim "aa.bb.cc") = ["aa", "bb", "cc"] ∧
    ((∀ m ∈ (FormatValidator.mkFormatResult (jsTrim "aa.bb.cc")).errors,
        isStructMsg m = false)
    ∧ (Msg.firstPartTooShort ∈
        (FormatValidator.mkFormatResult (jsTrim "aa.bb.cc")).warnings ↔
        jsLength "aa" < 10)
    ∧ (Msg.secondPartTooShort ∈
        (FormatValidator.mkFormatResult (jsTrim "aa.bb.cc")).warnings ↔
        jsLength "bb" < 6)
    ∧ (Msg.thirdPartTooShort ∈
        (FormatValidator.mkFormatResult (jsTrim "aa.bb.cc")).warnings ↔
        jsLength "cc" < 20)
    ∧ (Msg.firstPartBadChars ∈
        (FormatValidator.mkFormatResult (jsTrim "aa.bb.cc")).warnings ↔
        FormatValidator.b64RegexTest "aa" = false)
    ∧ (Msg.secondPartBadChars ∈
        (FormatValidator.mkFormatResult (jsTrim "aa.bb.cc")).warnings ↔
        FormatValidator.b64RegexTest "bb" = false)
    ∧ (Msg.thirdPartBadChars ∈
        (FormatValidator.mkFormatResult (jsTrim "aa.bb.cc")).warnings ↔
        FormatValidator.b64RegexTest "cc" = false)
    ∧ (FormatValidator.mkFormatResult (jsTrim "aa.bb.cc")).isValid =
        (FormatValidator.mkFormatResult (jsTrim "aa.bb.cc")).errors.isEmpty) :=
  ⟨rfl, by decide, structure_checks_warn_only "aa.bb.cc" _ "aa" "bb" "cc" rfl
    (by decide)⟩

/-- C6: every ApiValidationResponse produced by validateWithApi satisfies
the LivenessOutcome invariant: a success carries no error string, a
failure carries no user profile. -/
theorem validateWithApi_invariant (includeUserInfo : Bool)
    (r : Except ApiValidator.JsError DiscordUserInfo) :
    ApiValidator.livenessInvariant
      (ApiValidator.validateWithApi includeUserInfo r) = true := by
  rcases r with e | u
  · rcases e with e | msg <;>
      simp [ApiValidator.validateWithApi, ApiValidator.livenessInvariant]
  · simp [ApiValidator.validateWithApi, ApiValidator.livenessInvariant]

theorem append_left_ne_empty (a b : String) (h : a ≠ "") : a ++ b ≠ "" := by
  intro he
  apply h
  have hd := congrArg String.data he
  rw [String.data_append] at hd
  have ha : a.data = [] := (List.append_eq_nil.mp hd).1
  cases a with
  | mk l => exact congrArg String.mk ha

theorem apiFailure_truthy (incl : Bool) (h : ApiValidator.HttpExchange)
    (hfail : (ApiValidator.validateWithApiHttp incl h).success = false) :
    jsTruthyStr (ApiValidator.validateWithApiHttp incl h).error = true := by
  rcases h with msg | ms | ⟨st, body, ra⟩
  · simp only [ApiValidator.validateWithApiHttp, ApiValidator.makeApiRequest,
      Except.mapError, ApiValidator.validateWithApi, jsTruthyStr]
    simp only [decide_eq_true_eq]
    exact append_left_ne_empty _ _ (by decide)
  · simp only [ApiValidator.validateWithApiHttp, ApiValidator.makeApiRequest,
      Except.mapError, ApiValidator.validateWithApi, jsTruthyStr]
    simp only [decide_eq_true_eq]
    exact append_left_ne_empty _ _ (append_left_ne_empty _ _ (by decide))
  · rcases body with _ | raw
    · simp [ApiValidator.validateWithApiHttp, ApiValidator.makeApiRequest,
        Except.mapError, ApiValidator.validateWithApi, jsTruthyStr]
    · by_cases h200 : st = 200
      · subst h200
        simp [ApiValidator.validateWithApiHttp, ApiValidator.makeApiRequest,
          Except.mapError, ApiValidator.validateWithApi] at hfail
      · by_cases h401 : st = 401
        · subst h401
          simp [ApiValidator.validateWithApiHttp, ApiValidator.makeApiRequest,
            Except.mapError, ApiValidator.validateWithApi, jsTruthyStr]
        · by_cases h429 : st = 429
          · subst h429
            have hne : ¬("Rate limited. Retry after " ++ ra.getD "undefined"
                ++ " seconds" = "") :=
              append_left_ne_empty _ _ (append_left_ne_empty _ _ (by decide))
            simp [ApiValidator.validateWithApiHttp,
              ApiValidator.makeApiRequest, Except.mapError,
              ApiValidator.validateWithApi, jsTruthyStr, hne]
          · by_cases h403 : st = 403
            · subst h403
              simp [ApiValidator.validateWithApiHttp,
                ApiValidator.makeApiRequest, Except.mapError,
                ApiValidator.validateWithApi, jsTruthyStr]
            · simp only [ApiValidator.validateWithApiHttp,
                ApiValidator.makeApiRequest, Except.mapError,
                ApiValidator.validateWithApi, jsTruthyStr,
                if_neg h200, if_neg h401, if_neg h429, if_neg h403]
              simp only [decide_eq_true_eq]
              exact append_left_ne_empty _ _ (by decide)

/-- C1: for validation with method both and the API step enabled, the
merged result is valid exactly when the format verdict was valid and the
API step succeeded; whenever the API step fails, the result is invalid
and the classified (non-empty) error string is appended to the error
list, even when format validation passed. -/
theorem both_merge (token : String) (src : TokenSource) (incl : Bool)
    (h : ApiValidator.HttpExchange) (fr res : TokenValidationResult)
    (hfmt : FormatValidator.validateFormat token = .ok fr)
    (hres : DiscordTokenChecker.validateToken token src .both true incl
      (.call h) = .ok res) :
    res.isValid =
      (fr.isValid && (ApiValidator.validateWithApiHttp incl h).success)
    ∧ ((ApiValidator.validateWithApiHttp incl h).success = false →
        res.isValid = false
        ∧ jsTruthyStr (ApiValidator.validateWithApiHttp incl h).error = true
        ∧ res.errors = fr.errors ++
            [Msg.apiValidationFailed
              ((ApiValidator.validateWithApiHttp incl h).error.getD "")]) := by
  simp only [DiscordTokenChecker.validateToken, hfmt] at hres
  have hres2 := Except.ok.inj hres
  subst hres2
  simp only [DiscordTokenChecker.applyApi, Bool.not_true, Bool.false_eq_true,
    if_false]
  cases hsucc : (ApiValidator.validateWithApiHttp incl h).success
  · have htruthy := apiFailure_truthy incl h hsucc
    simp [hsucc, htruthy]
  · simp [hsucc]

/-- C1 witness: token "abc", a network-error exchange (API failure). -/
theorem both_merge_witness :
    FormatValidator.validateFormat "abc" =
      .ok (FormatValidator.mkFormatResult (jsTrim "abc")) ∧
    DiscordTokenChecker.validateToken "abc" .direct .both true true
      (.call (.netError "x")) =
      .ok { isValid := false
            format := { hasCorrectParts := false, hasCorrectLength := false,
                        hasNoSpaces := true, hasNoQuotes := true,
                        isNotBotToken := true }
            api := some { isActive := false,
                          error := some "Network error: x" }
            errors := [.wrongPartCount 1, .tooShort 3,
                       .apiValidationFailed "Network error: x"]
            warnings := []
            metadata := { length := 3, parts := 1, source := .direct } } ∧
    ({ isValid := false
       format := { hasCorrectParts := false, hasCorrectLength := false,
                   hasNoSpaces := true, hasNoQuotes := true,
                   isNotBotToken := true }
       api := some { isActive := false, error := some "Network error: x" }
       errors := [.wrongPartCount 1, .tooShort 3,
                  .apiValidationFailed "Network error: x"]
       warnings := []
       metadata := { length := 3, parts := 1, source := .direct } :
         TokenValidationResult }).isValid =
      ((FormatValidator.mkFormatResult (jsTrim "abc")).isValid &&
        (ApiValidator.validateWithApiHttp true (.netError "x")).success) ∧
    ((ApiValidator.validateWithApiHttp true (.netError "x")).success =
        false →
      ({ isValid := false
         format := { hasCorrectParts := false, hasCorrectLength := false,
                     hasNoSpaces := true, hasNoQuotes := true,
                     isNotBotToken := true }
         api := some { isActive := false, error := some "Network error: x" }
         errors := [.wrongPartCount 1, .tooShort 3,
                    .apiValidationFailed "Network error: x"]
         warnings := []
         metadata := { length := 3, parts := 1, source := .direct } :
           TokenValidationResult }).isValid = false
      ∧ jsTruthyStr
          (ApiValidator.validateWithApiHttp true (.netError "x")).error =
            true
      ∧ ({ isValid := false
           format := { hasCorrectParts := false, hasCorrectLength := false,
                       hasNoSpaces := true, hasNoQuotes := true,
                       isNotBotToken := true }
           api := some { isActive := false,
                         error := some "Network error: x" }
           errors := [.wrongPartCount 1, .tooShort 3,
                      .apiValidationFailed "Network error: x"]
           warnings := []
           metadata := { length := 3, parts := 1, source := .direct } :
             TokenValidationResult }).errors =
          (FormatValidator.mkFormatResult (jsTrim "abc")).errors ++
            [Msg.apiValidationFailed
              ((ApiValidator.validateWithApiHttp true
                  (.netError "x")).error.getD "")]) :=
  ⟨rfl, rfl,
   both_merge "abc" .direct true (.netError "x")
     (FormatValidator.mkFormatResult (jsTrim "abc"))
     { isValid := false
       format := { hasCorrectParts := false, hasCorrectLength := false,
                   hasNoSpaces := true, hasNoQuotes := true,
                   isNotBotToken := true }
       api := some { isActive := false, error := some "Network error: x" }
       errors := [.wrongPartCount 1, .tooShort 3,
                  .apiValidationFailed "Network error: x"]
       warnings := []
       metadata := { length := 3, parts := 1, source := .direct } }
     rfl rfl⟩

/-- C8: for API-only validation with the API step enabled, the result
carries the all-true placeholder FormatVerdict regardless of the token,
and overall validity equals the liveness outcome's success. -/
theorem api_only_placeholder (token : String) (src : TokenSource)
    (incl : Bool) (h : ApiValidator.HttpExchange)
    (res : TokenValidationResult)
    (hres : DiscordTokenChecker.validateToken token src .api true incl
      (.call h) = .ok res) :
    res.format = { hasCorrectParts := true, hasCorrectLength := true,
                   hasNoSpaces := true, hasNoQuotes := true,
                   isNotBotToken := true }
    ∧ res.isValid = (ApiValidator.validateWithApiHttp incl h).success := by
  simp only [DiscordTokenChecker.validateToken] at hres
  have hres2 := Except.ok.inj hres
  subst hres2
  simp only [DiscordTokenChecker.applyApi, Bool.not_true, Bool.false_eq_true,
    if_false]
  cases hsucc : (ApiValidator.validateWithApiHttp incl h).success <;>
    simp [hsucc]

/-- C8 witness: a malformed token "!!!" with a 401 exchange. -/
theorem api_only_placeholder_witness :
    DiscordTokenChecker.validateToken "!!!" .direct .api true false
      (.call (.response 401 (some {}) none)) =
      .ok { isValid := false
            format := { hasCorrectParts := true, hasCorrectLength := true,
                        hasNoSpaces := true, hasNoQuotes := true,
                        isNotBotToken := true }
            api := some { isActive := false,
                          error := some "Token is invalid or expired" }
            errors := [.apiValidationFailed "Token is invalid or expired"]
            warnings := []
            metadata := { length := 3, parts := 1, source := .direct } } ∧
    ({ isValid := false
       format := { hasCorrectParts := true, hasCorrectLength := true,
                   hasNoSpaces := true, hasNoQuotes := true,
                   isNotBotToken := true }
       api := some { isActive := false,
                     error := some "Token is invalid or expired" }
       errors := [.apiValidationFailed "Token is invalid or expired"]
       warnings := []
       metadata := { length := 3, parts := 1, source := .direct } :
         TokenValidationResult }).format =
      { hasCorrectParts := true, hasCorrectLength := true,
        hasNoSpaces := true, hasNoQuotes := true, isNotBotToken := true } ∧
    ({ isValid := false
       format := { hasCorrectParts := true, hasCorrectLength := true,
                   hasNoSpaces := true, hasNoQuotes := true,
                   isNotBotToken := true }
       api := some { isActive := false,
                     error := some "Token is invalid or expired" }
       errors := [.apiValidationFailed "Token is invalid or expired"]
       warnings := []
       metadata := { length := 3, parts := 1, source := .direct } :
         TokenValidationResult }).isValid =
      (ApiValidator.validateWithApiHttp false
        (.response 401 (some {}) none)).success :=
  ⟨rfl,
   api_only_placeholder "!!!" .direct false (.response 401 (some {}) none)
     { isValid := false
       format := { hasCorrectParts := true, hasCorrectLength := true,
                   hasNoSpaces := true, hasNoQuotes := true,
                   isNotBotToken := true }
       api := some { isActive := false,
                     error := some "Token is invalid or expired" }
       errors := [.apiValidationFailed "Token is invalid or expired"]
       warnings := []
       metadata := { length := 3, parts := 1, source := .direct } }
     rfl⟩

/-- C7 counterexample: a 401 response whose body fails JSON.parse is
classified as the parse-failure ApiError, not as Unauthorized, because
the body is parsed before the status switch; the claim as stated is
therefore false for that HTTP outcome. -/
theorem http_classification_counterexample :
    ApiValidator.makeApiRequest (.response 401 none none) =
      .error { message := "Failed to parse API response",
               type := .API_ERROR, details := some {} }
    ∧ TokenErrorType.API_ERROR ≠ TokenErrorType.UNAUTHORIZED
    ∧ "Failed to parse API response" ≠ "Token is invalid or expired" :=
  ⟨rfl, by decide, by decide⟩

/-- C7 (amended: provided the response body parses as JSON): status 401
is classified Unauthorized with message "Token is invalid or expired";
status 403 is an ApiError marking a valid-but-permission-lacking token;
status 429 is RateLimited and surfaces the retry-after header value in
the structured details; any other non-200 status is an ApiError carrying
that status code. -/
theorem http_classification (st : Nat) (raw : RawUser) (ra : Option String) :
    ApiValidator.makeApiRequest (.response 401 (some raw) ra) =
      .error { message := "Token is invalid or expired",
               type := .UNAUTHORIZED,
               details := some { statusCode := some 401 } }
    ∧ ApiValidator.makeApiRequest (.response 403 (some raw) ra) =
        .error { message :=
                   "Access forbidden. Token may be valid but lacks permissions",
                 type := .API_ERROR,
                 details := some { statusCode := some 403 } }
    ∧ ApiValidator.makeApiRequest (.response 429 (some raw) ra) =
        .error { message := "Rate limited. Retry after " ++
                   ra.getD "undefined" ++ " seconds",
                 type := .RATE_LIMITED,
                 details := some { statusCode := some 429,
                                   retryAfter := ra } }
    ∧ (st ≠ 200 → st ≠ 401 → st ≠ 403 → st ≠ 429 →
        ApiValidator.makeApiRequest (.response st (some raw) ra) =
          .error { message := "API request failed with status " ++
                     toString st,
                   type := .API_ERROR,
                   details := some { statusCode := some st } }) := by
  refine ⟨rfl, rfl, rfl, fun h200 h401 h403 h429 => ?_⟩
  simp only [ApiValidator.makeApiRequest, if_neg h200, if_neg h401,
    if_neg h429, if_neg h403]

/-- C7 witness: the amended classification at a parsed body, retry-after
"5", and the catch-all at status 500. -/
theorem http_classification_witness :
    ApiValidator.makeApiRequest (.response 401 (some {}) (some "5")) =
      .error { message := "Token is invalid or expired",
               type := .UNAUTHORIZED,
               details := some { statusCode := some 401 } }
    ∧ ApiValidator.makeApiRequest (.response 403 (some {}) (some "5")) =
        .error { message :=
                   "Access forbidden. Token may be valid but lacks permissions",
                 type := .API_ERROR,
                 details := some { statusCode := some 403 } }
    ∧ ApiValidator.makeApiRequest (.response 429 (some {}) (some "5")) =
        .error { message := "Rate limited. Retry after 5 seconds",
                 type := .RATE_LIMITED,
                 details := some { statusCode := some 429,
                                   retryAfter := some "5" } }
    ∧ ApiValidator.makeApiRequest (.response 500 (some {}) (some "5")) =
        .error { message := "API request failed with status 500",
                 type := .API_ERROR,
                 details := some { statusCode := some 500 } } :=
  ⟨(http_classification 500 {} (some "5")).1,
   (http_classification 500 {} (some "5")).2.1,
   (http_classification 500 {} (some "5")).2.2.1,
   (http_classification 500 {} (some "5")).2.2.2 (by decide) (by decide)
     (by decide) (by decide)⟩

theorem extractUserIdFromParts_ne3 (l : List String) (h : l.length ≠ 3) :
    FormatValidator.extractUserIdFromParts l = none := by
  rcases l with _ | ⟨a, _ | ⟨b, _ | ⟨c, _ | ⟨d, r⟩⟩⟩⟩ <;>
    simp_all [FormatValidator.extractUserIdFromParts]

theorem extractTimestampFromParts_ne3 (l : List String) (h : l.length ≠ 3) :
    FormatValidator.extractTimestampFromParts l = none := by
  rcases l with _ | ⟨a, _ | ⟨b, _ | ⟨c, _ | ⟨d, r⟩⟩⟩⟩ <;>
    simp_all [FormatValidator.extractTimestampFromParts]

/-- C4: the extraction utilities are total (they are Option-valued Lean
functions, the embedding of the catch-all returns of the source) and
degrade to none on every failure: a dot-split with a segment count other
than 3, a base64 decode whose UTF-8 reading is not a non-empty all-digit
string (user ID), or a decoded text that parseInt cannot read as a number
(timestamp). -/
theorem extractors_degrade (s : String) :
    ((jsSplit s).length ≠ 3 →
      FormatValidator.extractUserId s = none ∧
        FormatValidator.extractTimestamp s = none)
    ∧ (∀ a b c, jsSplit s = [a, b, c] →
        (((!(utf8Decode (b64decodeBytes a)).isEmpty &&
            (utf8Decode (b64decodeBytes a)).all Char.isDigit) = false →
          FormatValidator.extractUserId s = none)
        ∧ (jsParseInt (utf8Decode (b64decodeBytes b)) = none →
            FormatValidator.extractTimestamp s = none))) := by
  refine ⟨fun hlen => ⟨?_, ?_⟩, fun a b c h3 => ⟨?_, ?_⟩⟩
  · exact extractUserIdFromParts_ne3 _ hlen
  · exact extractTimestampFromParts_ne3 _ hlen
  · intro hfalse
    unfold FormatValidator.extractUserId
    rw [h3]
    simp [FormatValidator.extractUserIdFromParts, hfalse]
  · intro hparse
    unfold FormatValidator.extractTimestamp
    rw [h3]
    simp [FormatValidator.extractTimestampFromParts, hparse]

/-- C4 witness: a one-segment garbage string and a three-segment
non-base64 garbage token. -/
theorem extractors_degrade_witness :
    (jsSplit "x!").length ≠ 3 ∧
    (FormatValidator.extractUserId "x!" = none ∧
      FormatValidator.extractTimestamp "x!" = none) ∧
    jsSplit "@@.!!.##" = ["@@", "!!", "##"] ∧
    (!(utf8Decode (b64decodeBytes "@@")).isEmpty &&
      (utf8Decode (b64decodeBytes "@@")).all Char.isDigit) = false ∧
    FormatValidator.extractUserId "@@.!!.##" = none ∧
    jsParseInt (utf8Decode (b64decodeBytes "!!")) = none ∧
    FormatValidator.extractTimestamp "@@.!!.##" = none :=
  ⟨by decide, (extractors_degrade "x!").1 (by decide), by decide, by decide,
   ((extractors_degrade "@@.!!.##").2 "@@" "!!" "##" (by decide)).1
     (by decide),
   by decide,
   ((extractors_degrade "@@.!!.##").2 "@@" "!!" "##" (by decide)).2
     (by decide)⟩

/-! ## Base64/UTF-8/parseInt round-trip lemmas for C5 -/

theorem charToSextet_valToChar {v : Nat} (hv : v < 64) :
    charToSextet (valToChar v) = some v := by
  have H : ∀ w : Fin 64, charToSextet (valToChar w.1) = some w.1 := by decide
  exact H ⟨v, hv⟩

theorem valToChar_ne_dot {v : Nat} (hv : v < 64) : valToChar v ≠ '.' := by
  have H : ∀ w : Fin 64, valToChar w.1 ≠ '.' := by decide
  exact H ⟨v, hv⟩

theorem char_toNat_lt (c : Char) : c.toNat < 1114112 := by
  rcases c.valid with h | ⟨_, h⟩
  · exact Nat.lt_trans h (by decide)
  · exact h

theorem utf8EncodeChar_lt (c : Char) : ∀ b ∈ utf8EncodeChar c, b < 256 := by
  have hc := char_toNat_lt c
  unfold utf8EncodeChar
  split_ifs with h1 h2 h3 <;> intro b hb <;>
    simp only [List.mem_cons, List.not_mem_nil, or_false] at hb <;> omega

theorem utf8Encode_lt (cs : List Char) : ∀ b ∈ utf8Encode cs, b < 256 := by
  induction cs with
  | nil => intro b hb; simp [utf8Encode] at hb
  | cons c r ih =>
    intro b hb
    rw [utf8Encode, List.mem_append] at hb
    rcases hb with hb | hb
    · exact utf8EncodeChar_lt c b hb
    · exact ih b hb

theorem b64encodeBytes_ne_dot (l : List Nat) (hl : ∀ b ∈ l, b < 256) :
    ∀ ch ∈ b64encodeBytes l, ch ≠ '.' := by
  induction l using b64encodeBytes.induct with
  | case1 => intro ch hch; simp [b64encodeBytes] at hch
  | case2 b1 =>
    intro ch hch
    have h1 : b1 < 256 := hl b1 (by simp)
    simp only [b64encodeBytes, List.mem_cons, List.not_mem_nil,
      or_false] at hch
    rcases hch with rfl | rfl | rfl | rfl
    · exact valToChar_ne_dot (by omega)
    · exact valToChar_ne_dot (by omega)
    · decide
    · decide
  | case3 b1 b2 =>
    intro ch hch
    have h1 : b1 < 256 := hl b1 (by simp)
    have h2 : b2 < 256 := hl b2 (by simp)
    simp only [b64encodeBytes, List.mem_cons, List.not_mem_nil,
      or_false] at hch
    rcases hch with rfl | rfl | rfl | rfl
    · exact valToChar_ne_dot (by omega)
    · exact valToChar_ne_dot (by omega)
    · exact valToChar_ne_dot (by omega)
    · decide
  | case4 b1 b2 b3 rest ih =>
    intro ch hch
    have h1 : b1 < 256 := hl b1 (by simp)
    have h2 : b2 < 256 := hl b2 (by simp)
    have h3 : b3 < 256 := hl b3 (by simp)
    rw [b64encodeBytes] at hch
    simp only [List.mem_cons] at hch
    rcases hch with rfl | rfl | rfl | rfl | hch
    · exact valToChar_ne_dot (by omega)
    · exact valToChar_ne_dot (by omega)
    · exact valToChar_ne_dot (by omega)
    · exact valToChar_ne_dot (by omega)
    · exact ih (fun b hb => hl b (by simp [hb])) ch hch

theorem decode_encode (l : List Nat) (hl : ∀ b ∈ l, b < 256) :
    decodeSextets ((b64encodeBytes l).filterMap charToSextet) = l := by
  induction l using b64encodeBytes.induct with
  | case1 => rfl
  | case2 b1 =>
    have h1 : b1 < 256 := hl b1 (by simp)
    rw [b64encodeBytes, List.filterMap_cons_some
        (charToSextet_valToChar (by omega : b1 / 4 < 64)),
      List.filterMap_cons_some
        (charToSextet_valToChar (by omega : b1 % 4 * 16 < 64)),
      List.filterMap_cons_none (by decide),
      List.filterMap_cons_none (by decide)]
    simp only [List.filterMap_nil, decodeSextets, List.cons.injEq, and_true]
    omega
  | case3 b1 b2 =>
    have h1 : b1 < 256 := hl b1 (by simp)
    have h2 : b2 < 256 := hl b2 (by simp)
    rw [b64encodeBytes, List.filterMap_cons_some
        (charToSextet_valToChar (by omega : b1 / 4 < 64)),
      List.filterMap_cons_some
        (charToSextet_valToChar (by omega : b1 % 4 * 16 + b2 / 16 < 64)),
      List.filterMap_cons_some
        (charToSextet_valToChar (by omega : b2 % 16 * 4 < 64)),
      List.filterMap_cons_none (by decide)]
    simp only [List.filterMap_nil, decodeSextets, List.cons.injEq, and_true]
    constructor <;> omega
  | case4 b1 b2 b3 rest ih =>
    have h1 : b1 < 256 := hl b1 (by simp)
    have h2 : b2 < 256 := hl b2 (by simp)
    have h3 : b3 < 256 := hl b3 (by simp)
    have hrest : ∀ b ∈ rest, b < 256 := fun b hb => hl b (by simp [hb])
    rw [b64encodeBytes, List.filterMap_cons_some
        (charToSextet_valToChar (by omega : b1 / 4 < 64)),
      List.filterMap_cons_some
        (charToSextet_valToChar (by omega : b1 % 4 * 16 + b2 / 16 < 64)),
      List.filterMap_cons_some
        (charToSextet_valToChar (by omega : b2 % 16 * 4 + b3 / 64 < 64)),
      List.filterMap_cons_some
        (charToSextet_valToChar (by omega : b3 % 64 < 64)),
      decodeSextets, ih hrest]
    simp only [List.cons.injEq, and_true]
    refine ⟨by omega, by omega, by omega⟩

theorem utf8EncodeChar_ascii {c : Char} (hc : c.toNat < 128) :
    utf8EncodeChar c = [c.toNat] := by
  unfold utf8EncodeChar
  rw [if_pos hc]

theorem utf8Encode_ascii (cs : List Char) (h : ∀ c ∈ cs, c.toNat < 128) :
    utf8Encode cs = cs.map Char.toNat := by
  induction cs with
  | nil => rfl
  | cons c r ih =>
    rw [utf8Encode, utf8EncodeChar_ascii (h c (List.mem_cons_self c r)),
      ih (fun x hx => h x (List.mem_cons_of_mem _ hx)), List.map_cons,
      List.singleton_append]

theorem utf8Decode_ascii : ∀ l : List Nat, (∀ b ∈ l, b < 128) →
    utf8Decode l = l.map Char.ofNat
  | [], _ => rfl
  | [b], h => by
    rw [utf8Decode, if_pos (h b (List.mem_cons_self b []))]
    rfl
  | [b, b2], h => by
    rw [utf8Decode, if_pos (h b (List.mem_cons_self _ _)),
      utf8Decode_ascii [b2] (fun x hx => h x (List.mem_cons_of_mem _ hx))]
    rfl
  | [b, b2, b3], h => by
    rw [utf8Decode, if_pos (h b (List.mem_cons_self _ _)),
      utf8Decode_ascii [b2, b3]
        (fun x hx => h x (List.mem_cons_of_mem _ hx))]
    rfl
  | b :: b2 :: b3 :: b4 :: rest, h => by
    rw [utf8Decode, if_pos (h b (List.mem_cons_self _ _)),
      utf8Decode_ascii (b2 :: b3 :: b4 :: rest)
        (fun x hx => h x (List.mem_cons_of_mem _ hx))]
    rfl

theorem utf8Decode_encode_ascii (cs : List Char)
    (h : ∀ c ∈ cs, c.toNat < 128) : utf8Decode (utf8Encode cs) = cs := by
  rw [utf8Encode_ascii cs h, utf8Decode_ascii _ (by
    intro b hb
    obtain ⟨c, hc, rfl⟩ := List.mem_map.mp hb
    exact h c hc)]
  rw [List.map_map, show Char.ofNat ∘ Char.toNat = id from
    funext fun c => Char.ofNat_toNat c, List.map_id]

theorem digitChar_props (d : Nat) (hd : d < 10) :
    (Nat.digitChar d).toNat = 48 + d ∧ (Nat.digitChar d).isDigit = true ∧
    jsWSChar (Nat.digitChar d) = false ∧ Nat.digitChar d ≠ '-' ∧
    Nat.digitChar d ≠ '+' ∧ (Nat.digitChar d).toNat < 128 := by
  have H : ∀ w : Fin 10,
      (Nat.digitChar w.1).toNat = 48 + w.1 ∧
      (Nat.digitChar w.1).isDigit = true ∧
      jsWSChar (Nat.digitChar w.1) = false ∧ Nat.digitChar w.1 ≠ '-' ∧
      Nat.digitChar w.1 ≠ '+' ∧ (Nat.digitChar w.1).toNat < 128 := by decide
  exact H ⟨d, hd⟩

theorem decRepr_mem (n : Nat) :
    ∀ c ∈ decRepr n, ∃ d, d < 10 ∧ c = Nat.digitChar d := by
  induction n using decRepr.induct with
  | case1 n h =>
    intro c hc
    rw [decRepr, dif_pos h] at hc
    simp only [List.mem_singleton] at hc
    exact ⟨n, h, hc⟩
  | case2 n h ih =>
    intro c hc
    rw [decRepr, dif_neg h] at hc
    rcases List.mem_append.mp hc with hc | hc
    · exact ih c hc
    · simp only [List.mem_singleton] at hc
      exact ⟨n % 10, Nat.mod_lt _ (by omega), hc⟩

theorem decRepr_ne_nil (n : Nat) : decRepr n ≠ [] := by
  induction n using decRepr.induct with
  | case1 n h => rw [decRepr, dif_pos h]; simp
  | case2 n h ih => rw [decRepr, dif_neg h]; simp

theorem charsToNat_decRepr (n : Nat) : charsToNat (decRepr n) = n := by
  induction n using decRepr.induct with
  | case1 n h =>
    rw [decRepr, dif_pos h]
    have := (digitChar_props n h).1
    simp only [charsToNat, List.foldl_cons, List.foldl_nil]
    omega
  | case2 n h ih =>
    rw [decRepr, dif_neg h]
    have hmod := (digitChar_props (n % 10) (Nat.mod_lt _ (by omega))).1
    unfold charsToNat at ih ⊢
    rw [List.foldl_append, ih]
    simp only [List.foldl_cons, List.foldl_nil]
    omega

theorem takeWhile_eq_of_all {p : Char → Bool} (l : List Char)
    (h : ∀ x ∈ l, p x = true) : l.takeWhile p = l := by
  induction l with
  | nil => rfl
  | cons c r ih =>
    rw [List.takeWhile_cons_of_pos (h c (List.mem_cons_self c r)),
      ih (fun x hx => h x (List.mem_cons_of_mem _ hx))]

theorem jsParseInt_digits (l : List Char) (hne : l ≠ [])
    (hall : ∀ c ∈ l, ∃ d, d < 10 ∧ c = Nat.digitChar d) :
    jsParseInt l = some ((charsToNat l : Nat) : Int) := by
  cases l with
  | nil => exact absurd rfl hne
  | cons c0 r =>
    obtain ⟨d, hd, rfl⟩ := hall c0 (List.mem_cons_self _ _)
    have props := digitChar_props d hd
    have hdig : ∀ c ∈ Nat.digitChar d :: r, Char.isDigit c = true := by
      intro c hc
      obtain ⟨e, he, rfl⟩ := hall c hc
      exact (digitChar_props e he).2.1
    have hws : ¬ jsWSChar (Nat.digitChar d) = true := by
      simp [props.2.2.1]
    have hor : ¬ (Nat.digitChar d = '-' ∨ Nat.digitChar d = '+') := by
      rintro (e | e)
      · exact props.2.2.2.1 e
      · exact props.2.2.2.2.1 e
    simp only [jsParseInt, List.dropWhile_cons_of_neg hws,
      if_neg props.2.2.2.1, if_neg hor]
    rw [takeWhile_eq_of_all _ hdig]
    simp

theorem mk_data (s : String) : String.mk s.data = s := by
  cases s with
  | mk l => rfl

theorem splitChars_no_dot (l : List Char) (h : '.' ∉ l) :
    splitChars l = [l] := by
  induction l with
  | nil => rfl
  | cons c r ih =>
    have hc : ¬ c = '.' := fun e => h (e ▸ List.mem_cons_self c r)
    rw [splitChars, if_neg hc, ih (fun m => h (List.mem_cons_of_mem _ m))]

theorem splitChars_append_dot (a r : List Char) (ha : '.' ∉ a) :
    splitChars (a ++ '.' :: r) = a :: splitChars r := by
  induction a with
  | nil =>
    rw [List.nil_append, splitChars, if_pos rfl]
  | cons c a' ih =>
    have hc : ¬ c = '.' := fun e => ha (e ▸ List.mem_cons_self c a')
    rw [List.cons_append, splitChars, if_neg hc,
      ih (fun m => ha (List.mem_cons_of_mem _ m))]

theorem jsSplit_synthToken (epoch : Nat) (sig : String)
    (hsig : '.' ∉ sig.data) :
    jsSplit (synthToken epoch sig) =
      [b64encodeOfChars "123456789012345678".data,
       b64encodeOfChars (decRepr epoch), sig] := by
  have hd1 : '.' ∉ (b64encodeOfChars "123456789012345678".data).data := by
    decide
  have hd2 : '.' ∉ (b64encodeOfChars (decRepr epoch)).data := fun hmem =>
    b64encodeBytes_ne_dot _ (utf8Encode_lt _) '.' hmem rfl
  unfold jsSplit synthToken
  rw [show (b64encodeOfChars "123456789012345678".data ++ "." ++
      b64encodeOfChars (decRepr epoch) ++ "." ++ sig).data =
      (b64encodeOfChars "123456789012345678".data).data ++ '.' ::
        ((b64encodeOfChars (decRepr epoch)).data ++ '.' :: sig.data) by
    simp [String.data_append]]
  rw [splitChars_append_dot _ _ hd1, splitChars_append_dot _ _ hd2,
    splitChars_no_dot _ hsig]
  simp [mk_data]

/-- C5: round-trip on a synthetic token: when segment 1 is the base64
encoding of the digit string "123456789012345678" and segment 2 is the
base64 encoding of the decimal representation of a valid epoch-seconds
value (and the signature segment contains no dot, which any token segment
satisfies), user-ID extraction recovers exactly that digit string and
timestamp extraction yields the Date whose millisecond value is
epoch * 1000. -/
theorem extraction_round_trip (epoch : Nat) (sig : String)
    (_hepoch : epoch ≤ 8640000000000) (hsig : '.' ∉ sig.data) :
    FormatValidator.extractUserId (synthToken epoch sig) =
      some "123456789012345678"
    ∧ FormatValidator.extractTimestamp (synthToken epoch sig) =
        some ((epoch : Int) * 1000) := by
  have hsplit := jsSplit_synthToken epoch sig hsig
  constructor
  · unfold FormatValidator.extractUserId
    rw [hsplit]
    simp only [FormatValidator.extractUserIdFromParts]
    decide
  · unfold FormatValidator.extractTimestamp
    rw [hsplit]
    simp only [FormatValidator.extractTimestampFromParts]
    have hbytes : b64decodeBytes (b64encodeOfChars (decRepr epoch)) =
        utf8Encode (decRepr epoch) :=
      decode_encode _ (utf8Encode_lt _)
    rw [hbytes]
    have hascii : ∀ c ∈ decRepr epoch, c.toNat < 128 := by
      intro c hc
      obtain ⟨d, hd, rfl⟩ := decRepr_mem epoch c hc
      exact (digitChar_props d hd).2.2.2.2.2
    rw [utf8Decode_encode_ascii _ hascii,
      jsParseInt_digits _ (decRepr_ne_nil epoch) (decRepr_mem epoch),
      charsToNat_decRepr]

/-- C5 witness at epoch 1700000000 and signature "xyz". -/
theorem extraction_round_trip_witness :
    (1700000000 : Nat) ≤ 8640000000000 ∧ '.' ∉ ("xyz" : String).data ∧
    (FormatValidator.extractUserId (synthToken 1700000000 "xyz") =
        some "123456789012345678"
      ∧ FormatValidator.extractTimestamp (synthToken 1700000000 "xyz") =
          some (((1700000000 : Nat) : Int) * 1000)) :=
  ⟨by decide, by decide,
   extraction_round_trip 1700000000 "xyz" (by decide) (by decide)⟩

end TokenChecker
